import Mathlib

/-!
Verification of `src/assets/image-management.js` (ctfd-whale admin image
picker).  The script manipulates four DOM elements (a select, two buttons
and a text input), issues two JSON API calls, and raises alerts.

Shallow embedding: the DOM is a record of optional elements (absent =
`getElementById` returned null).  Each function of `WhaleImageManager` is
translated to a pure function producing the ordered list of effects
(`List Ev`) it performs, with the asynchronous API outcome (the parsed
JSON value the promise chain resolves to, or the rejection error) passed
as an explicit argument.  `runEvs` replays a trace on a DOM state.
Setting `innerHTML` on the select to an option-list markup string is
modelled as replacing its option list; `showAlert` is modelled as a
console log followed by one user-visible alert event (the host fallback
chain inside `showAlert` is an external collaborator).
-/

/-- An `<option>` child of the select: its `value` and text content. -/
structure SelOption where
  value : String
  text : String
deriving Repr, DecidableEq

/-- The `available-images` select: rendered options and CSS display. -/
structure SelectEl where
  options : List SelOption
  display : String
deriving Repr, DecidableEq

/-- A button element: `disabled` flag and `innerHTML` label. -/
structure ButtonEl where
  disabled : Bool
  innerHTML : String
deriving Repr, DecidableEq

/-- The `docker_image` text input. -/
structure InputEl where
  value : String
deriving Repr, DecidableEq

/-- The DOM elements the script binds to, each possibly absent. -/
structure Dom where
  availableImages : Option SelectEl
  loadImagesDropdown : Option ButtonEl
  refreshImagesListButton : Option ButtonEl
  dockerImage : Option InputEl
deriving Repr, DecidableEq

/-- A rejection value of the promise chain (network or parse failure). -/
structure JsError where
  message : String
deriving Repr, DecidableEq

/-- The `data` member of a list response; `images` may be missing. -/
structure ListData where
  images : Option (List String)
deriving Repr, DecidableEq

/-- Parsed JSON of `GET .../images/list`; optional members are `Option`. -/
structure ListResponse where
  success : Bool
  data : Option ListData
  message : Option String
deriving Repr, DecidableEq

/-- Parsed JSON of `POST .../images/refresh`. -/
structure RefreshResponse where
  success : Bool
  message : Option String
deriving Repr, DecidableEq

/-- Result of one API round trip: resolved parsed value, or rejection. -/
inductive ApiOutcome (α : Type) where
  | ok (resp : α)
  | err (e : JsError)
deriving Repr, DecidableEq

/-- Observable effects, in program order.  Console events and listener
attachment change no modelled state; the rest update the DOM, and
`alertEv` is the single user-visible alert `showAlert` raises.
`callLoadImages` marks the call site `this.loadAvailableImages()` inside
`refreshImagesList`. -/
inductive Ev where
  | consoleLog (msg : String)
  | consoleWarn (msg : String)
  | consoleError (msg : String)
  | setDropdownOptions (opts : List SelOption)
  | setDropdownDisplay (d : String)
  | setLoadButtonDisabled (b : Bool)
  | setRefreshButtonDisabled (b : Bool)
  | setRefreshButtonHTML (s : String)
  | setDockerImageValue (v : String)
  | request (url : String) (method : String)
  | alertEv (title : String) (body : Option String) (kind : String)
  | addListener (id : String) (event : String)
  | callLoadImages
deriving Repr, DecidableEq

/-- Replay one effect on the DOM.  Updates touch an element only when it
is present (the traces below only emit them when it is). -/
def applyEv (dom : Dom) : Ev → Dom
  | Ev.setDropdownOptions opts =>
      { dom with availableImages :=
          dom.availableImages.map fun s => { s with options := opts } }
  | Ev.setDropdownDisplay d =>
      { dom with availableImages :=
          dom.availableImages.map fun s => { s with display := d } }
  | Ev.setLoadButtonDisabled b =>
      { dom with loadImagesDropdown :=
          dom.loadImagesDropdown.map fun btn => { btn with disabled := b } }
  | Ev.setRefreshButtonDisabled b =>
      { dom with refreshImagesListButton :=
          dom.refreshImagesListButton.map fun btn => { btn with disabled := b } }
  | Ev.setRefreshButtonHTML s =>
      { dom with refreshImagesListButton :=
          dom.refreshImagesListButton.map fun btn => { btn with innerHTML := s } }
  | Ev.setDockerImageValue v =>
      { dom with dockerImage := dom.dockerImage.map fun _ => { value := v } }
  | _ => dom

/-- Replay a trace left to right. -/
def runEvs (dom : Dom) (tr : List Ev) : Dom :=
  tr.foldl applyEv dom

/-- JavaScript `m || dflt` on a string-or-undefined value: the default is
substituted when the value is absent or the empty string (both falsy). -/
def jsOr (m : Option String) (dflt : String) : String :=
  match m with
  | some s => if s == "" then dflt else s
  | none => dflt

/-- `showAlert(title, message, kind)`: a console log, then one
user-visible alert (ezAlert / native alert — external collaborators).
A `none` body models passing JavaScript `undefined`. -/
def showAlert (title : String) (body : Option String) (kind : String) : List Ev :=
  [Ev.consoleLog (title ++ ": " ++ body.getD "undefined"),
   Ev.alertEv title body kind]

def listUrl : String := "/api/v1/plugins/ctfd-whale/admin/images/list"

def refreshUrl : String := "/api/v1/plugins/ctfd-whale/admin/images/refresh"

/-- The guard `data.success && data.data && data.data.images &&
data.data.images.length > 0`, returning the images when it passes.
(A JS array is always truthy, so only `length > 0` decides the last
conjunct.) -/
def nonEmptyImages? (resp : ListResponse) : Option (List String) :=
  if resp.success then
    match resp.data with
    | some d =>
        match d.images with
        | some imgs => if 0 < imgs.length then some imgs else none
        | none => none
    | none => none
  else none

namespace WhaleImageManager

/-- The `else` branch of the list-response handler: one placeholder
option carrying `data.message || "No images found with configured
prefix"`, and an alert only when `!data.success`. -/
def loadElse (resp : ListResponse) : List Ev :=
  let message := jsOr resp.message "No images found with configured prefix"
  Ev.setDropdownOptions [⟨"", message⟩] ::
    (if !resp.success then showAlert "Error" (some message) "error" else [])

/-- The `.then` handler of `loadAvailableImages`. -/
def loadResponseEvents (resp : ListResponse) : List Ev :=
  Ev.consoleLog "Images API response:" ::
    match nonEmptyImages? resp with
    | some imgs =>
        [Ev.setDropdownOptions
          (⟨"", "Select an image..."⟩ :: imgs.map fun image => ⟨image, image⟩)]
    | none => loadElse resp

/-- The `.catch` handler of `loadAvailableImages`. -/
def loadErrorEvents (e : JsError) : List Ev :=
  Ev.consoleError "Error loading images:" ::
    Ev.setDropdownOptions [⟨"", "Error loading images"⟩] ::
      showAlert "Error" (some ("Failed to load images: " ++ e.message)) "error"

/-- `WhaleImageManager.loadAvailableImages`: abort with a console error
when the select or the trigger button is absent; otherwise show the
loading placeholder, disable the button, issue the GET, handle the
outcome, and re-enable the button in the `.finally` block. -/
def loadAvailableImages (dom : Dom) (outcome : ApiOutcome ListResponse) : List Ev :=
  match dom.availableImages, dom.loadImagesDropdown with
  | some _, some _ =>
      Ev.setDropdownOptions [⟨"", "Loading available images..."⟩] ::
        Ev.setDropdownDisplay "block" ::
          Ev.setLoadButtonDisabled true ::
            Ev.request listUrl "GET" ::
              ((match outcome with
                | ApiOutcome.ok resp => loadResponseEvents resp
                | ApiOutcome.err e => loadErrorEvents e) ++
               [Ev.setLoadButtonDisabled false])
  | _, _ => [Ev.consoleError "Image dropdown elements not found"]

/-- The busy-indicator label put on the refresh button while the POST is
in flight. -/
def spinnerHTML : String := "<i class=\"fas fa-spinner fa-spin\"></i>"

/-- The `.then` handler of `refreshImagesList`.  On `data.success` it
calls `this.loadAvailableImages()` (marked by `Ev.callLoadImages`; the
nested call reads the DOM as mutated so far) and shows a success alert
whose body is `data.message` verbatim; otherwise one error alert with
`data.message || "Failed to refresh images"`. -/
def refreshResponseEvents (dom2 : Dom) (resp : RefreshResponse)
    (listOutcome : ApiOutcome ListResponse) : List Ev :=
  Ev.consoleLog "Refresh API response:" ::
    (if resp.success then
      Ev.callLoadImages ::
        (loadAvailableImages dom2 listOutcome ++
         showAlert "Success" resp.message "success")
    else
      showAlert "Error" (some (jsOr resp.message "Failed to refresh images")) "error")

/-- The `.catch` handler of `refreshImagesList`. -/
def refreshErrorEvents (e : JsError) : List Ev :=
  Ev.consoleError "Error refreshing images:" ::
    showAlert "Error" (some ("Failed to refresh images: " ++ e.message)) "error"

/-- `WhaleImageManager.refreshImagesList`: abort with a console error
when the refresh button is absent; otherwise capture `originalText`,
disable the button and show the spinner, issue the POST, handle the
outcome (`listOutcome` feeds the nested `loadAvailableImages` call), and
in the `.finally` block re-enable the button and restore its label. -/
def refreshImagesList (dom : Dom) (outcome : ApiOutcome RefreshResponse)
    (listOutcome : ApiOutcome ListResponse) : List Ev :=
  match dom.refreshImagesListButton with
  | none => [Ev.consoleError "Refresh button not found"]
  | some btn =>
      let originalText := btn.innerHTML
      let startEvents : List Ev :=
        [Ev.setRefreshButtonDisabled true,
         Ev.setRefreshButtonHTML spinnerHTML,
         Ev.request refreshUrl "POST"]
      startEvents ++
        ((match outcome with
          | ApiOutcome.ok resp =>
              refreshResponseEvents (runEvs dom startEvents) resp listOutcome
          | ApiOutcome.err e => refreshErrorEvents e) ++
         [Ev.setRefreshButtonDisabled false,
          Ev.setRefreshButtonHTML originalText])

/-- The `change` listener attached to the dropdown: `selectedImage` is
`dropdown.value` at the moment the event fires.  A non-empty (truthy)
value is copied into `docker_image` and the dropdown hidden, both only
when that input exists. -/
def dropdownChangeHandler (dom : Dom) (selectedImage : String) : List Ev :=
  Ev.consoleLog "Image selected:" ::
    (if selectedImage == "" then []
    else
      match dom.dockerImage with
      | some _ => [Ev.setDockerImageValue selectedImage,
                   Ev.setDropdownDisplay "none"]
      | none => [])

/-- `WhaleImageManager.setupImageDropdown`: wire the three listeners
(each wiring step independent, warning when its element is absent), then
read the `image` query parameter — `imageParam` is what
`urlParams.get("image")` returned, `none` for null — and, when truthy,
copy it verbatim into `docker_image` if that input exists. -/
def setupImageDropdown (dom : Dom) (imageParam : Option String) : List Ev :=
  Ev.consoleLog "Setting up image dropdown functionality" ::
    ((match dom.loadImagesDropdown with
      | some _ => [Ev.addListener "load-images-dropdown" "click"]
      | none => [Ev.consoleWarn "Load images button not found"]) ++
     (match dom.refreshImagesListButton with
      | some _ => [Ev.addListener "refresh-images-list" "click"]
      | none => [Ev.consoleWarn "Refresh images button not found"]) ++
     (match dom.availableImages with
      | some _ => [Ev.addListener "available-images" "change"]
      | none => [Ev.consoleWarn "Available images dropdown not found"]) ++
     (match imageParam with
      | some img =>
          if img == "" then []
          else
            match dom.dockerImage with
            | some _ => [Ev.setDockerImageValue img,
                         Ev.consoleLog "Pre-selected image from URL:"]
            | none => []
      | none => []))

end WhaleImageManager

/-- The user-visible alerts of a trace: (title, body, kind) triples. -/
def alertsOf (tr : List Ev) : List (String × Option String × String) :=
  tr.filterMap fun e =>
    match e with
    | Ev.alertEv t b k => some (t, b, k)
    | _ => none

/-- The HTTP requests of a trace: (url, method) pairs. -/
def requestsOf (tr : List Ev) : List (String × String) :=
  tr.filterMap fun e =>
    match e with
    | Ev.request u m => some (u, m)
    | _ => none

/-- How many times a trace enters `loadAvailableImages` from the call
site inside `refreshImagesList`. -/
def countLoadCalls (tr : List Ev) : Nat :=
  tr.countP fun e =>
    match e with
    | Ev.callLoadImages => true
    | _ => false

@[simp]
lemma runEvs_nil (dom : Dom) : runEvs dom [] = dom := rfl

@[simp]
lemma runEvs_cons (dom : Dom) (e : Ev) (tr : List Ev) :
    runEvs dom (e :: tr) = runEvs (applyEv dom e) tr := rfl

@[simp]
lemma runEvs_append (dom : Dom) (a b : List Ev) :
    runEvs dom (a ++ b) = runEvs (runEvs dom a) b :=
  List.foldl_append _ _ _ _

/- Concrete DOM fixtures used by witnesses and counterexamples. -/

def sel0 : SelectEl := { options := [], display := "block" }

def btn0 : ButtonEl := { disabled := false, innerHTML := "Load Images" }

def rbtn0 : ButtonEl := { disabled := false, innerHTML := "Refresh List" }

def inp0 : InputEl := { value := "orig" }

/-- A page where all four elements exist. -/
def dom0 : Dom :=
  { availableImages := some sel0, loadImagesDropdown := some btn0,
    refreshImagesListButton := some rbtn0, dockerImage := some inp0 }

/-- A page with none of the elements. -/
def domEmpty : Dom :=
  { availableImages := none, loadImagesDropdown := none,
    refreshImagesListButton := none, dockerImage := none }

def resp0 : ListResponse :=
  { success := true, data := some { images := some ["ubuntu", "alpine"] },
    message := none }

/-- C1: for every list response with the success flag true whose data
carries a non-empty list of image names, `loadAvailableImages` leaves the
dropdown with exactly `N + 1` options — the empty-valued
"Select an image..." placeholder first, then one option per name with
value and text equal to that name, in server order — and the trigger
button enabled. -/
theorem C1_load_success_renders_options
    (dom : Dom) (sel : SelectEl) (btn : ButtonEl)
    (resp : ListResponse) (d : ListData) (imgs : List String)
    (hsel : dom.availableImages = some sel)
    (hbtn : dom.loadImagesDropdown = some btn)
    (hsucc : resp.success = true)
    (hdata : resp.data = some d)
    (himgs : d.images = some imgs)
    (hne : imgs ≠ []) :
    ((runEvs dom (WhaleImageManager.loadAvailableImages dom
        (ApiOutcome.ok resp))).availableImages.map SelectEl.options) =
      some (⟨"", "Select an image..."⟩ :: imgs.map fun image => ⟨image, image⟩) ∧
    (((runEvs dom (WhaleImageManager.loadAvailableImages dom
        (ApiOutcome.ok resp))).availableImages.map SelectEl.options).map
        List.length) = some (imgs.length + 1) ∧
    ((runEvs dom (WhaleImageManager.loadAvailableImages dom
        (ApiOutcome.ok resp))).loadImagesDropdown.map ButtonEl.disabled) =
      some false := by
  have hnon : nonEmptyImages? resp = some imgs := by
    simp [nonEmptyImages?, hsucc, hdata, himgs, List.length_pos.mpr hne]
  simp [WhaleImageManager.loadAvailableImages, hsel, hbtn,
    WhaleImageManager.loadResponseEvents, hnon, applyEv]

theorem C1_witness :
    ((runEvs dom0 (WhaleImageManager.loadAvailableImages dom0
        (ApiOutcome.ok resp0))).availableImages.map SelectEl.options) =
      some [⟨"", "Select an image..."⟩, ⟨"ubuntu", "ubuntu"⟩,
        ⟨"alpine", "alpine"⟩] ∧
    (((runEvs dom0 (WhaleImageManager.loadAvailableImages dom0
        (ApiOutcome.ok resp0))).availableImages.map SelectEl.options).map
        List.length) = some 3 ∧
    ((runEvs dom0 (WhaleImageManager.loadAvailableImages dom0
        (ApiOutcome.ok resp0))).loadImagesDropdown.map ButtonEl.disabled) =
      some false := by
  have h := C1_load_success_renders_options dom0 sel0 btn0 resp0
    { images := some ["ubuntu", "alpine"] } ["ubuntu", "alpine"]
    rfl rfl rfl rfl rfl (by decide)
  simpa using h

/-- A response whose success flag is true, whose image list is empty and
whose `message` member is present but equal to the empty string. -/
def respC2 : ListResponse :=
  { success := true, data := some { images := some [] }, message := some "" }

/-- C2 (counterexample): at a success-true, zero-image response carrying
the present message `""`, the dropdown's sole placeholder holds the
default text, not the server-supplied message `""` — because the code
computes `data.message || default` and JavaScript `||` discards a present
but empty message, not only an absent one. -/
theorem C2_counterexample :
    respC2.message = some "" ∧
    ((runEvs dom0 (WhaleImageManager.loadAvailableImages dom0
        (ApiOutcome.ok respC2))).availableImages.map SelectEl.options) =
      some [⟨"", "No images found with configured prefix"⟩] ∧
    ¬ ((runEvs dom0 (WhaleImageManager.loadAvailableImages dom0
        (ApiOutcome.ok respC2))).availableImages.map SelectEl.options) =
      some [⟨"", ""⟩] :=
  ⟨rfl, by decide, by decide⟩

/-- C2 (amended): for every list response handled without transport
failure that does not carry a non-empty image list, the dropdown becomes
a single placeholder whose text is the server message when that message
is present and non-empty, and the default "No images found with
configured prefix" otherwise; an alert carrying that same text is raised
if and only if the success flag is false. -/
theorem C2_amended_empty_or_failed_list
    (dom : Dom) (sel : SelectEl) (btn : ButtonEl) (resp : ListResponse)
    (hsel : dom.availableImages = some sel)
    (hbtn : dom.loadImagesDropdown = some btn)
    (hno : ¬ (resp.success = true ∧ ∃ d imgs,
      resp.data = some d ∧ d.images = some imgs ∧ imgs ≠ [])) :
    ((runEvs dom (WhaleImageManager.loadAvailableImages dom
        (ApiOutcome.ok resp))).availableImages.map SelectEl.options) =
      some [⟨"", (match resp.message with
        | some s => if s == "" then "No images found with configured prefix" else s
        | none => "No images found with configured prefix")⟩] ∧
    alertsOf (WhaleImageManager.loadAvailableImages dom (ApiOutcome.ok resp)) =
      (if resp.success then []
       else [("Error", some (match resp.message with
        | some s => if s == "" then "No images found with configured prefix" else s
        | none => "No images found with configured prefix"), "error")]) := by
  have hnon : nonEmptyImages? resp = none := by
    cases hsucc : resp.success
    · simp [nonEmptyImages?, hsucc]
    · rcases hd : resp.data with _ | d
      · simp [nonEmptyImages?, hsucc, hd]
      · rcases hi : d.images with _ | imgs
        · simp [nonEmptyImages?, hsucc, hd, hi]
        · have hemp : imgs = [] := by
            by_contra hne
            exact hno ⟨hsucc, d, imgs, hd, hi, hne⟩
          simp [nonEmptyImages?, hsucc, hd, hi, hemp]
  cases hsucc : resp.success <;>
    rcases hm : resp.message with _ | s <;>
      simp [WhaleImageManager.loadAvailableImages, hsel, hbtn,
        WhaleImageManager.loadResponseEvents, hnon,
        WhaleImageManager.loadElse, hsucc, hm, jsOr, showAlert,
        alertsOf, applyEv]

/-- A success-false response with a non-empty message. -/
def respFail : ListResponse :=
  { success := false, data := none, message := some "boom" }

theorem C2_witness :
    ((runEvs dom0 (WhaleImageManager.loadAvailableImages dom0
        (ApiOutcome.ok respFail))).availableImages.map SelectEl.options) =
      some [⟨"", "boom"⟩] ∧
    alertsOf (WhaleImageManager.loadAvailableImages dom0 (ApiOutcome.ok respFail)) =
      [("Error", some "boom", "error")] := by
  have h := C2_amended_empty_or_failed_list dom0 sel0 btn0 respFail
    rfl rfl (by simp [respFail])
  simpa [respFail] using h

/-- C3: for every transport or parse failure of the list request,
`loadAvailableImages` renders "Error loading images" as the dropdown's
sole option and raises exactly one alert whose body is
"Failed to load images: " followed by the error's message. -/
theorem C3_load_transport_failure
    (dom : Dom) (sel : SelectEl) (btn : ButtonEl) (e : JsError)
    (hsel : dom.availableImages = some sel)
    (hbtn : dom.loadImagesDropdown = some btn) :
    ((runEvs dom (WhaleImageManager.loadAvailableImages dom
        (ApiOutcome.err e))).availableImages.map SelectEl.options) =
      some [⟨"", "Error loading images"⟩] ∧
    alertsOf (WhaleImageManager.loadAvailableImages dom (ApiOutcome.err e)) =
      [("Error", some ("Failed to load images: " ++ e.message), "error")] := by
  simp [WhaleImageManager.loadAvailableImages, hsel, hbtn,
    WhaleImageManager.loadErrorEvents, showAlert, alertsOf, applyEv]

theorem C3_witness :
    ((runEvs dom0 (WhaleImageManager.loadAvailableImages dom0
        (ApiOutcome.err ⟨"NetworkError"⟩))).availableImages.map
        SelectEl.options) = some [⟨"", "Error loading images"⟩] ∧
    alertsOf (WhaleImageManager.loadAvailableImages dom0
        (ApiOutcome.err ⟨"NetworkError"⟩)) =
      [("Error", some "Failed to load images: NetworkError", "error")] := by
  have h := C3_load_transport_failure dom0 sel0 btn0 ⟨"NetworkError"⟩ rfl rfl
  simpa using h

/- Replaying any trace never creates or removes an element, so presence
of each of the four elements is invariant. -/

lemma applyEv_presence (dom : Dom) (e : Ev) :
    (applyEv dom e).availableImages.isSome = dom.availableImages.isSome ∧
    (applyEv dom e).loadImagesDropdown.isSome = dom.loadImagesDropdown.isSome ∧
    (applyEv dom e).refreshImagesListButton.isSome =
      dom.refreshImagesListButton.isSome ∧
    (applyEv dom e).dockerImage.isSome = dom.dockerImage.isSome := by
  cases e <;> simp [applyEv]

lemma runEvs_presence (tr : List Ev) : ∀ dom : Dom,
    (runEvs dom tr).availableImages.isSome = dom.availableImages.isSome ∧
    (runEvs dom tr).loadImagesDropdown.isSome = dom.loadImagesDropdown.isSome ∧
    (runEvs dom tr).refreshImagesListButton.isSome =
      dom.refreshImagesListButton.isSome ∧
    (runEvs dom tr).dockerImage.isSome = dom.dockerImage.isSome := by
  induction tr with
  | nil => intro dom; simp
  | cons e tr ih =>
      intro dom
      have h1 := applyEv_presence dom e
      have h2 := ih (applyEv dom e)
      simp only [runEvs_cons]
      exact ⟨h2.1.trans h1.1, h2.2.1.trans h1.2.1,
        h2.2.2.1.trans h1.2.2.1, h2.2.2.2.trans h1.2.2.2⟩

/-- When both elements exist, `loadAvailableImages` is the fixed
four-event preamble, the outcome handling, then the `.finally` event. -/
lemma load_shape (dom : Dom) (sel : SelectEl) (btn : ButtonEl)
    (o : ApiOutcome ListResponse)
    (hsel : dom.availableImages = some sel)
    (hbtn : dom.loadImagesDropdown = some btn) :
    WhaleImageManager.loadAvailableImages dom o =
      [Ev.setDropdownOptions [⟨"", "Loading available images..."⟩],
       Ev.setDropdownDisplay "block",
       Ev.setLoadButtonDisabled true,
       Ev.request listUrl "GET"] ++
      ((match o with
        | ApiOutcome.ok resp => WhaleImageManager.loadResponseEvents resp
        | ApiOutcome.err e => WhaleImageManager.loadErrorEvents e) ++
       [Ev.setLoadButtonDisabled false]) := by
  simp [WhaleImageManager.loadAvailableImages, hsel, hbtn]

/-- When the refresh button exists, `refreshImagesList` is the fixed
three-event preamble, the outcome handling, then the two `.finally`
events restoring the button. -/
lemma refresh_shape (dom : Dom) (rbtn : ButtonEl)
    (ro : ApiOutcome RefreshResponse) (lo : ApiOutcome ListResponse)
    (hrbtn : dom.refreshImagesListButton = some rbtn) :
    WhaleImageManager.refreshImagesList dom ro lo =
      [Ev.setRefreshButtonDisabled true,
       Ev.setRefreshButtonHTML WhaleImageManager.spinnerHTML,
       Ev.request refreshUrl "POST"] ++
      ((match ro with
        | ApiOutcome.ok resp =>
            WhaleImageManager.refreshResponseEvents
              (runEvs dom
                [Ev.setRefreshButtonDisabled true,
                 Ev.setRefreshButtonHTML WhaleImageManager.spinnerHTML,
                 Ev.request refreshUrl "POST"]) resp lo
        | ApiOutcome.err e => WhaleImageManager.refreshErrorEvents e) ++
       [Ev.setRefreshButtonDisabled false,
        Ev.setRefreshButtonHTML rbtn.innerHTML]) := by
  simp [WhaleImageManager.refreshImagesList, hrbtn]

/-- Replaying the `.finally` event of `loadAvailableImages` on any state
where the trigger button exists leaves it enabled. -/
lemma final_load_enabled (d : Dom) (h : d.loadImagesDropdown.isSome = true) :
    ((runEvs d [Ev.setLoadButtonDisabled false]).loadImagesDropdown.map
      ButtonEl.disabled) = some false := by
  obtain ⟨b, hb⟩ := Option.isSome_iff_exists.mp h
  simp [runEvs, applyEv, hb]

/-- Replaying the two `.finally` events of `refreshImagesList` on any
state where the refresh button exists leaves it enabled with the given
label. -/
lemma final_refresh_restored (d : Dom) (s : String)
    (h : d.refreshImagesListButton.isSome = true) :
    ((runEvs d [Ev.setRefreshButtonDisabled false,
        Ev.setRefreshButtonHTML s]).refreshImagesListButton.map
      ButtonEl.disabled) = some false ∧
    ((runEvs d [Ev.setRefreshButtonDisabled false,
        Ev.setRefreshButtonHTML s]).refreshImagesListButton.map
      ButtonEl.innerHTML) = some s := by
  obtain ⟨b, hb⟩ := Option.isSome_iff_exists.mp h
  simp [runEvs, applyEv, hb]

lemma load_cleanup (dom : Dom) (sel : SelectEl) (btn : ButtonEl)
    (o : ApiOutcome ListResponse)
    (hsel : dom.availableImages = some sel)
    (hbtn : dom.loadImagesDropdown = some btn) :
    (WhaleImageManager.loadAvailableImages dom o)[2]? =
      some (Ev.setLoadButtonDisabled true) ∧
    (WhaleImageManager.loadAvailableImages dom o)[3]? =
      some (Ev.request listUrl "GET") ∧
    (WhaleImageManager.loadAvailableImages dom o).reverse[0]? =
      some (Ev.setLoadButtonDisabled false) ∧
    ((runEvs dom (WhaleImageManager.loadAvailableImages dom o)).loadImagesDropdown.map
      ButtonEl.disabled) = some false := by
  rw [load_shape dom sel btn o hsel hbtn]
  refine ⟨by simp, by simp, by simp, ?_⟩
  rw [← List.append_assoc, runEvs_append]
  apply final_load_enabled
  rw [(runEvs_presence _ _).2.1, hbtn]
  rfl

lemma refresh_cleanup (dom : Dom) (rbtn : ButtonEl)
    (ro : ApiOutcome RefreshResponse) (lo : ApiOutcome ListResponse)
    (hrbtn : dom.refreshImagesListButton = some rbtn) :
    (WhaleImageManager.refreshImagesList dom ro lo)[0]? =
      some (Ev.setRefreshButtonDisabled true) ∧
    (WhaleImageManager.refreshImagesList dom ro lo)[2]? =
      some (Ev.request refreshUrl "POST") ∧
    (WhaleImageManager.refreshImagesList dom ro lo).reverse[0]? =
      some (Ev.setRefreshButtonHTML rbtn.innerHTML) ∧
    (WhaleImageManager.refreshImagesList dom ro lo).reverse[1]? =
      some (Ev.setRefreshButtonDisabled false) ∧
    ((runEvs dom (WhaleImageManager.refreshImagesList dom ro lo)).refreshImagesListButton.map
      ButtonEl.disabled) = some false ∧
    ((runEvs dom (WhaleImageManager.refreshImagesList dom ro lo)).refreshImagesListButton.map
      ButtonEl.innerHTML) = some rbtn.innerHTML := by
  rw [refresh_shape dom rbtn ro lo hrbtn]
  have hfin := final_refresh_restored
    (runEvs dom
      ([Ev.setRefreshButtonDisabled true,
        Ev.setRefreshButtonHTML WhaleImageManager.spinnerHTML,
        Ev.request refreshUrl "POST"] ++
       (match ro with
        | ApiOutcome.ok resp =>
            WhaleImageManager.refreshResponseEvents
              (runEvs dom
                [Ev.setRefreshButtonDisabled true,
                 Ev.setRefreshButtonHTML WhaleImageManager.spinnerHTML,
                 Ev.request refreshUrl "POST"]) resp lo
        | ApiOutcome.err e => WhaleImageManager.refreshErrorEvents e)))
    rbtn.innerHTML
    (by rw [(runEvs_presence _ _).2.2.1, hrbtn]; rfl)
  refine ⟨by simp, by simp, by simp, by simp, ?_, ?_⟩ <;>
    rw [← List.append_assoc, runEvs_append]
  · exact hfin.1
  · exact hfin.2

/-- C4: on every invocation whose DOM preconditions hold, the trigger
(resp. refresh) button is disabled strictly before the request event and,
on every outcome, re-enabled as the trace's final cleanup, so the
replayed DOM always ends with the button enabled; `refreshImagesList`
additionally ends by restoring the button's pre-click label. -/
theorem C4_button_disabled_then_reenabled
    (dom : Dom) (sel : SelectEl) (btn : ButtonEl) (rbtn : ButtonEl)
    (o : ApiOutcome ListResponse) (ro : ApiOutcome RefreshResponse)
    (lo : ApiOutcome ListResponse)
    (hsel : dom.availableImages = some sel)
    (hbtn : dom.loadImagesDropdown = some btn)
    (hrbtn : dom.refreshImagesListButton = some rbtn) :
    (WhaleImageManager.loadAvailableImages dom o)[2]? =
      some (Ev.setLoadButtonDisabled true) ∧
    (WhaleImageManager.loadAvailableImages dom o)[3]? =
      some (Ev.request listUrl "GET") ∧
    (WhaleImageManager.loadAvailableImages dom o).reverse[0]? =
      some (Ev.setLoadButtonDisabled false) ∧
    ((runEvs dom (WhaleImageManager.loadAvailableImages dom o)).loadImagesDropdown.map
      ButtonEl.disabled) = some false ∧
    (WhaleImageManager.refreshImagesList dom ro lo)[0]? =
      some (Ev.setRefreshButtonDisabled true) ∧
    (WhaleImageManager.refreshImagesList dom ro lo)[2]? =
      some (Ev.request refreshUrl "POST") ∧
    (WhaleImageManager.refreshImagesList dom ro lo).reverse[0]? =
      some (Ev.setRefreshButtonHTML rbtn.innerHTML) ∧
    (WhaleImageManager.refreshImagesList dom ro lo).reverse[1]? =
      some (Ev.setRefreshButtonDisabled false) ∧
    ((runEvs dom (WhaleImageManager.refreshImagesList dom ro lo)).refreshImagesListButton.map
      ButtonEl.disabled) = some false ∧
    ((runEvs dom (WhaleImageManager.refreshImagesList dom ro lo)).refreshImagesListButton.map
      ButtonEl.innerHTML) = some rbtn.innerHTML := by
  have h1 := load_cleanup dom sel btn o hsel hbtn
  have h2 := refresh_cleanup dom rbtn ro lo hrbtn
  exact ⟨h1.1, h1.2.1, h1.2.2.1, h1.2.2.2, h2.1, h2.2.1, h2.2.2.1,
    h2.2.2.2.1, h2.2.2.2.2.1, h2.2.2.2.2.2⟩

theorem C4_witness :
    (WhaleImageManager.loadAvailableImages dom0 (ApiOutcome.err ⟨"x"⟩))[2]? =
      some (Ev.setLoadButtonDisabled true) ∧
    (WhaleImageManager.loadAvailableImages dom0 (ApiOutcome.err ⟨"x"⟩))[3]? =
      some (Ev.request listUrl "GET") ∧
    (WhaleImageManager.loadAvailableImages dom0
      (ApiOutcome.err ⟨"x"⟩)).reverse[0]? =
      some (Ev.setLoadButtonDisabled false) ∧
    ((runEvs dom0 (WhaleImageManager.loadAvailableImages dom0
      (ApiOutcome.err ⟨"x"⟩))).loadImagesDropdown.map ButtonEl.disabled) =
      some false ∧
    (WhaleImageManager.refreshImagesList dom0 (ApiOutcome.err ⟨"y"⟩)
      (ApiOutcome.ok resp0))[0]? =
      some (Ev.setRefreshButtonDisabled true) ∧
    (WhaleImageManager.refreshImagesList dom0 (ApiOutcome.err ⟨"y"⟩)
      (ApiOutcome.ok resp0))[2]? =
      some (Ev.request refreshUrl "POST") ∧
    (WhaleImageManager.refreshImagesList dom0 (ApiOutcome.err ⟨"y"⟩)
      (ApiOutcome.ok resp0)).reverse[0]? =
      some (Ev.setRefreshButtonHTML "Refresh List") ∧
    (WhaleImageManager.refreshImagesList dom0 (ApiOutcome.err ⟨"y"⟩)
      (ApiOutcome.ok resp0)).reverse[1]? =
      some (Ev.setRefreshButtonDisabled false) ∧
    ((runEvs dom0 (WhaleImageManager.refreshImagesList dom0
      (ApiOutcome.err ⟨"y"⟩) (ApiOutcome.ok resp0))).refreshImagesListButton.map
      ButtonEl.disabled) = some false ∧
    ((runEvs dom0 (WhaleImageManager.refreshImagesList dom0
      (ApiOutcome.err ⟨"y"⟩) (ApiOutcome.ok resp0))).refreshImagesListButton.map
      ButtonEl.innerHTML) = some "Refresh List" := by
  have h := C4_button_disabled_then_reenabled dom0 sel0 btn0 rbtn0
    (ApiOutcome.err ⟨"x"⟩) (ApiOutcome.err ⟨"y"⟩) (ApiOutcome.ok resp0)
    rfl rfl rfl
  simpa using h

@[simp]
lemma alertsOf_nil : alertsOf [] = [] := rfl

@[simp]
lemma alertsOf_cons (e : Ev) (tr : List Ev) :
    alertsOf (e :: tr) =
      (match e with
       | Ev.alertEv t b k => [(t, b, k)]
       | _ => []) ++ alertsOf tr := by
  cases e <;> rfl

@[simp]
lemma alertsOf_append (a b : List Ev) :
    alertsOf (a ++ b) = alertsOf a ++ alertsOf b :=
  List.filterMap_append _ _ _

@[simp]
lemma requestsOf_nil : requestsOf [] = [] := rfl

@[simp]
lemma requestsOf_cons (e : Ev) (tr : List Ev) :
    requestsOf (e :: tr) =
      (match e with
       | Ev.request u m => [(u, m)]
       | _ => []) ++ requestsOf tr := by
  cases e <;> rfl

@[simp]
lemma requestsOf_append (a b : List Ev) :
    requestsOf (a ++ b) = requestsOf a ++ requestsOf b :=
  List.filterMap_append _ _ _

@[simp]
lemma countLoadCalls_nil : countLoadCalls [] = 0 := rfl

@[simp]
lemma countLoadCalls_cons (e : Ev) (tr : List Ev) :
    countLoadCalls (e :: tr) =
      countLoadCalls tr +
        (match e with
         | Ev.callLoadImages => 1
         | _ => 0) := by
  unfold countLoadCalls
  rw [List.countP_cons]
  cases e <;> rfl

@[simp]
lemma countLoadCalls_append (a b : List Ev) :
    countLoadCalls (a ++ b) = countLoadCalls a + countLoadCalls b :=
  List.countP_append _ _ _

/-- Events a `loadAvailableImages` trace may contain: none touch the
refresh button, none are the call marker of `refreshImagesList`, and
every alert is an error alert. -/
def benignForRefresh (e : Ev) : Bool :=
  match e with
  | Ev.setRefreshButtonDisabled _ => false
  | Ev.setRefreshButtonHTML _ => false
  | Ev.callLoadImages => false
  | Ev.alertEv _ _ k => k == "error"
  | _ => true

lemma benign_showAlert (t : String) (b : Option String) :
    ∀ e ∈ showAlert t b "error", benignForRefresh e = true := by
  simp [showAlert, benignForRefresh]

lemma benign_loadElse (r : ListResponse) :
    ∀ e ∈ WhaleImageManager.loadElse r, benignForRefresh e = true := by
  intro e he
  simp only [WhaleImageManager.loadElse, List.mem_cons] at he
  rcases he with h | h
  · subst h; rfl
  · cases hs : r.success <;> rw [hs] at h <;> simp [showAlert] at h
    rcases h with h | h <;> subst h <;> simp [benignForRefresh]

lemma benign_loadResponseEvents (r : ListResponse) :
    ∀ e ∈ WhaleImageManager.loadResponseEvents r, benignForRefresh e = true := by
  intro e he
  simp only [WhaleImageManager.loadResponseEvents] at he
  rcases hni : nonEmptyImages? r with _ | imgs <;> rw [hni] at he <;>
    rcases List.mem_cons.mp he with h | h
  · subst h; rfl
  · exact benign_loadElse r e h
  · subst h; rfl
  · simp at h; subst h; rfl

lemma benign_loadErrorEvents (err : JsError) :
    ∀ e ∈ WhaleImageManager.loadErrorEvents err, benignForRefresh e = true := by
  intro e he
  simp [WhaleImageManager.loadErrorEvents, showAlert] at he
  rcases he with h | h | h | h <;> subst h <;> simp [benignForRefresh]

lemma benign_load (dom : Dom) (o : ApiOutcome ListResponse) :
    ∀ e ∈ WhaleImageManager.loadAvailableImages dom o, benignForRefresh e = true := by
  intro e he
  unfold WhaleImageManager.loadAvailableImages at he
  rcases h1 : dom.availableImages with _ | sel <;> rw [h1] at he
  · simp at he; subst he; rfl
  · rcases h2 : dom.loadImagesDropdown with _ | btn <;> rw [h2] at he
    · simp at he; subst he; rfl
    · simp only [List.mem_cons, List.mem_append, List.mem_singleton] at he
      rcases he with h | h | h | h | h | h
      · subst h; rfl
      · subst h; rfl
      · subst h; rfl
      · subst h; rfl
      · rcases o with r | err
        · exact benign_loadResponseEvents r e h
        · exact benign_loadErrorEvents err e h
      · rcases h with h | h
        · subst h; rfl
        · simp at h

/-- A `loadAvailableImages` trace never contains the call marker. -/
lemma load_no_calls (dom : Dom) (o : ApiOutcome ListResponse) :
    countLoadCalls (WhaleImageManager.loadAvailableImages dom o) = 0 := by
  unfold countLoadCalls
  rw [List.countP_eq_zero]
  intro e he
  have hb := benign_load dom o e he
  cases e <;> simp_all [benignForRefresh]

/-- A `loadAvailableImages` trace raises no success-kind alert. -/
lemma load_success_alerts_nil (dom : Dom) (o : ApiOutcome ListResponse) :
    (alertsOf (WhaleImageManager.loadAvailableImages dom o)).filter
      (fun a => a.2.2 == "success") = [] := by
  rw [List.filter_eq_nil_iff]
  intro a ha
  rcases List.mem_filterMap.mp ha with ⟨e, he, hme⟩
  have hb := benign_load dom o e he
  cases e <;> simp at hme
  rename_i t b k
  subst hme
  simp [benignForRefresh] at hb
  simp only [hb]
  decide

/-- C5: for every refresh response with the success flag true,
`refreshImagesList` enters `loadAvailableImages` exactly once and raises
exactly one success alert, whose body is the server's message; for every
success-false response or transport error it raises exactly one error
alert (server message or default, resp. error-derived message) and never
enters `loadAvailableImages`. -/
theorem C5_refresh_success_reloads_once
    (dom : Dom) (rbtn : ButtonEl)
    (rOk rBad : RefreshResponse) (e : JsError)
    (lo1 lo2 lo3 : ApiOutcome ListResponse)
    (hrbtn : dom.refreshImagesListButton = some rbtn)
    (hOk : rOk.success = true)
    (hBad : rBad.success = false) :
    countLoadCalls (WhaleImageManager.refreshImagesList dom
      (ApiOutcome.ok rOk) lo1) = 1 ∧
    (alertsOf (WhaleImageManager.refreshImagesList dom
        (ApiOutcome.ok rOk) lo1)).filter (fun a => a.2.2 == "success") =
      [("Success", rOk.message, "success")] ∧
    countLoadCalls (WhaleImageManager.refreshImagesList dom
      (ApiOutcome.ok rBad) lo2) = 0 ∧
    alertsOf (WhaleImageManager.refreshImagesList dom
        (ApiOutcome.ok rBad) lo2) =
      [("Error", some (jsOr rBad.message "Failed to refresh images"), "error")] ∧
    countLoadCalls (WhaleImageManager.refreshImagesList dom
      (ApiOutcome.err e) lo3) = 0 ∧
    alertsOf (WhaleImageManager.refreshImagesList dom
        (ApiOutcome.err e) lo3) =
      [("Error", some ("Failed to refresh images: " ++ e.message), "error")] := by
  refine ⟨?_, ?_, ?_, ?_, ?_, ?_⟩
  · rw [refresh_shape dom rbtn (ApiOutcome.ok rOk) lo1 hrbtn]
    simp [WhaleImageManager.refreshResponseEvents, hOk, showAlert,
      load_no_calls]
  · rw [refresh_shape dom rbtn (ApiOutcome.ok rOk) lo1 hrbtn]
    simp [WhaleImageManager.refreshResponseEvents, hOk, showAlert,
      List.filter_append, load_success_alerts_nil]
  · rw [refresh_shape dom rbtn (ApiOutcome.ok rBad) lo2 hrbtn]
    simp [WhaleImageManager.refreshResponseEvents, hBad, showAlert]
  · rw [refresh_shape dom rbtn (ApiOutcome.ok rBad) lo2 hrbtn]
    simp [WhaleImageManager.refreshResponseEvents, hBad, showAlert]
  · rw [refresh_shape dom rbtn (ApiOutcome.err e) lo3 hrbtn]
    simp [WhaleImageManager.refreshErrorEvents, showAlert]
  · rw [refresh_shape dom rbtn (ApiOutcome.err e) lo3 hrbtn]
    simp [WhaleImageManager.refreshErrorEvents, showAlert]

theorem C5_witness :
    countLoadCalls (WhaleImageManager.refreshImagesList dom0
      (ApiOutcome.ok ⟨true, some "Refreshed"⟩) (ApiOutcome.ok resp0)) = 1 ∧
    (alertsOf (WhaleImageManager.refreshImagesList dom0
        (ApiOutcome.ok ⟨true, some "Refreshed"⟩)
        (ApiOutcome.ok resp0))).filter (fun a => a.2.2 == "success") =
      [("Success", some "Refreshed", "success")] ∧
    countLoadCalls (WhaleImageManager.refreshImagesList dom0
      (ApiOutcome.ok ⟨false, some "locked"⟩) (ApiOutcome.ok resp0)) = 0 ∧
    alertsOf (WhaleImageManager.refreshImagesList dom0
        (ApiOutcome.ok ⟨false, some "locked"⟩) (ApiOutcome.ok resp0)) =
      [("Error", some "locked", "error")] ∧
    countLoadCalls (WhaleImageManager.refreshImagesList dom0
      (ApiOutcome.err ⟨"down"⟩) (ApiOutcome.ok resp0)) = 0 ∧
    alertsOf (WhaleImageManager.refreshImagesList dom0
        (ApiOutcome.err ⟨"down"⟩) (ApiOutcome.ok resp0)) =
      [("Error", some "Failed to refresh images: down", "error")] := by
  have h := C5_refresh_success_reloads_once dom0 rbtn0
    ⟨true, some "Refreshed"⟩ ⟨false, some "locked"⟩ ⟨"down"⟩
    (ApiOutcome.ok resp0) (ApiOutcome.ok resp0) (ApiOutcome.ok resp0)
    rfl rfl rfl
  simpa [jsOr] using h

/-- C10: the success alert of `refreshImagesList` carries `data.message`
verbatim — in particular an absent message yields an alert with an
undefined body, no default substituted — whereas the failure branch
substitutes the default "Failed to refresh images" when the message is
absent: the two branches default asymmetrically. -/
theorem C10_refresh_alert_defaulting_asymmetry
    (dom : Dom) (rbtn : ButtonEl) (m : Option String)
    (lo1 lo2 : ApiOutcome ListResponse)
    (hrbtn : dom.refreshImagesListButton = some rbtn) :
    (alertsOf (WhaleImageManager.refreshImagesList dom
        (ApiOutcome.ok ⟨true, m⟩) lo1)).filter (fun a => a.2.2 == "success") =
      [("Success", m, "success")] ∧
    alertsOf (WhaleImageManager.refreshImagesList dom
        (ApiOutcome.ok ⟨false, none⟩) lo2) =
      [("Error", some "Failed to refresh images", "error")] := by
  constructor
  · rw [refresh_shape dom rbtn (ApiOutcome.ok ⟨true, m⟩) lo1 hrbtn]
    simp [WhaleImageManager.refreshResponseEvents, showAlert,
      List.filter_append, load_success_alerts_nil]
  · rw [refresh_shape dom rbtn (ApiOutcome.ok ⟨false, none⟩) lo2 hrbtn]
    simp [WhaleImageManager.refreshResponseEvents, showAlert, jsOr]

theorem C10_witness :
    (alertsOf (WhaleImageManager.refreshImagesList dom0
        (ApiOutcome.ok ⟨true, none⟩)
        (ApiOutcome.ok resp0))).filter (fun a => a.2.2 == "success") =
      [("Success", none, "success")] ∧
    alertsOf (WhaleImageManager.refreshImagesList dom0
        (ApiOutcome.ok ⟨false, none⟩) (ApiOutcome.ok resp0)) =
      [("Error", some "Failed to refresh images", "error")] := by
  have h := C10_refresh_alert_defaulting_asymmetry dom0 rbtn0 none
    (ApiOutcome.ok resp0) (ApiOutcome.ok resp0) rfl
  simpa using h

/-- C6: when the select or the trigger button is absent,
`loadAvailableImages` produces only the console diagnostic — no request,
no alert — and leaves the DOM unchanged; likewise `refreshImagesList`
when the refresh button is absent. -/
theorem C6_missing_elements_abort_silently
    (domA domB : Dom) (o : ApiOutcome ListResponse)
    (ro : ApiOutcome RefreshResponse) (lo : ApiOutcome ListResponse)
    (hmiss : domA.availableImages = none ∨ domA.loadImagesDropdown = none)
    (hrmiss : domB.refreshImagesListButton = none) :
    WhaleImageManager.loadAvailableImages domA o =
      [Ev.consoleError "Image dropdown elements not found"] ∧
    runEvs domA (WhaleImageManager.loadAvailableImages domA o) = domA ∧
    WhaleImageManager.refreshImagesList domB ro lo =
      [Ev.consoleError "Refresh button not found"] ∧
    runEvs domB (WhaleImageManager.refreshImagesList domB ro lo) = domB := by
  have hload : WhaleImageManager.loadAvailableImages domA o =
      [Ev.consoleError "Image dropdown elements not found"] := by
    rcases hmiss with h | h
    · rcases h2 : domA.loadImagesDropdown with _ | b <;>
        simp [WhaleImageManager.loadAvailableImages, h, h2]
    · rcases h2 : domA.availableImages with _ | s <;>
        simp [WhaleImageManager.loadAvailableImages, h, h2]
  have hrefresh : WhaleImageManager.refreshImagesList domB ro lo =
      [Ev.consoleError "Refresh button not found"] := by
    simp [WhaleImageManager.refreshImagesList, hrmiss]
  refine ⟨hload, ?_, hrefresh, ?_⟩
  · rw [hload]; rfl
  · rw [hrefresh]; rfl

theorem C6_witness :
    WhaleImageManager.loadAvailableImages domEmpty (ApiOutcome.ok resp0) =
      [Ev.consoleError "Image dropdown elements not found"] ∧
    runEvs domEmpty (WhaleImageManager.loadAvailableImages domEmpty
      (ApiOutcome.ok resp0)) = domEmpty ∧
    WhaleImageManager.refreshImagesList domEmpty
        (ApiOutcome.ok ⟨true, none⟩) (ApiOutcome.ok resp0) =
      [Ev.consoleError "Refresh button not found"] ∧
    runEvs domEmpty (WhaleImageManager.refreshImagesList domEmpty
      (ApiOutcome.ok ⟨true, none⟩) (ApiOutcome.ok resp0)) = domEmpty :=
  C6_missing_elements_abort_silently domEmpty domEmpty (ApiOutcome.ok resp0)
    (ApiOutcome.ok ⟨true, none⟩) (ApiOutcome.ok resp0) (Or.inl rfl) rfl

/-- C7: when the change handler fires with a non-empty selected value and
the `docker_image` input exists, the value is copied into the input and
the dropdown hidden; with the empty placeholder value selected the DOM is
left entirely unchanged. -/
theorem C7_change_handler_copies_and_hides
    (dom : Dom) (sel : SelectEl) (inp : InputEl) (v : String)
    (hsel : dom.availableImages = some sel)
    (hinp : dom.dockerImage = some inp)
    (hv : v ≠ "") :
    (runEvs dom (WhaleImageManager.dropdownChangeHandler dom v)).dockerImage =
      some ⟨v⟩ ∧
    ((runEvs dom (WhaleImageManager.dropdownChangeHandler dom v)).availableImages.map
      SelectEl.display) = some "none" ∧
    runEvs dom (WhaleImageManager.dropdownChangeHandler dom "") = dom := by
  have hb : (v == "") = false := beq_eq_false_iff_ne.mpr hv
  refine ⟨?_, ?_, ?_⟩
  · simp [WhaleImageManager.dropdownChangeHandler, hb, hinp, hsel, applyEv]
  · simp [WhaleImageManager.dropdownChangeHandler, hb, hinp, hsel, applyEv]
  · simp [WhaleImageManager.dropdownChangeHandler, applyEv]

theorem C7_witness :
    (runEvs dom0 (WhaleImageManager.dropdownChangeHandler dom0
      "ubuntu")).dockerImage = some ⟨"ubuntu"⟩ ∧
    ((runEvs dom0 (WhaleImageManager.dropdownChangeHandler dom0
      "ubuntu")).availableImages.map SelectEl.display) = some "none" ∧
    runEvs dom0 (WhaleImageManager.dropdownChangeHandler dom0 "") = dom0 := by
  have h := C7_change_handler_copies_and_hides dom0 sel0 inp0 "ubuntu"
    rfl rfl (by decide)
  simpa using h

/-- A page whose `docker_image` input is absent but whose other three
elements exist. -/
def domNoInput : Dom :=
  { availableImages := some sel0, loadImagesDropdown := some btn0,
    refreshImagesListButton := some rbtn0, dockerImage := none }

/-- C9: when the change handler fires with a non-empty value but the
`docker_image` input is absent, neither effect happens: the trace is the
console log alone — in particular the dropdown is not hidden — and the
DOM is unchanged. -/
theorem C9_change_handler_without_input_does_nothing
    (dom : Dom) (v : String)
    (hv : v ≠ "")
    (hinp : dom.dockerImage = none) :
    WhaleImageManager.dropdownChangeHandler dom v =
      [Ev.consoleLog "Image selected:"] ∧
    runEvs dom (WhaleImageManager.dropdownChangeHandler dom v) = dom := by
  have hb : (v == "") = false := beq_eq_false_iff_ne.mpr hv
  have htr : WhaleImageManager.dropdownChangeHandler dom v =
      [Ev.consoleLog "Image selected:"] := by
    simp [WhaleImageManager.dropdownChangeHandler, hb, hinp]
  exact ⟨htr, by rw [htr]; rfl⟩

theorem C9_witness :
    WhaleImageManager.dropdownChangeHandler domNoInput "ubuntu" =
      [Ev.consoleLog "Image selected:"] ∧
    runEvs domNoInput (WhaleImageManager.dropdownChangeHandler domNoInput
      "ubuntu") = domNoInput :=
  C9_change_handler_without_input_does_nothing domNoInput "ubuntu"
    (by decide) rfl

/-- C8 (counterexample): the page URL `?image=` carries a query
parameter named `image` whose literal value is the empty string —
`urlParams.get("image")` returns `""` — yet `setupImageDropdown` leaves
the input's prior value in place instead of setting it to that literal
value, because `if (preselectedImage)` is false for an empty string. -/
theorem C8_counterexample :
    ((runEvs dom0 (WhaleImageManager.setupImageDropdown dom0
      (some ""))).dockerImage.map InputEl.value) = some "orig" ∧
    ¬ ((runEvs dom0 (WhaleImageManager.setupImageDropdown dom0
      (some ""))).dockerImage.map InputEl.value) = some "" :=
  ⟨by decide, by decide⟩

/-- C8 (amended): when the `image` query parameter is present with a
non-empty value, `setupImageDropdown` copies it verbatim into the
`docker_image` input, with no validation and no network request; when the
parameter is absent — or present but empty — the input keeps its prior
value, and still no request is issued. -/
theorem C8_amended_url_preselect
    (dom : Dom) (inp : InputEl) (imageParam : Option String)
    (hinp : dom.dockerImage = some inp) :
    ((runEvs dom (WhaleImageManager.setupImageDropdown dom
      imageParam)).dockerImage.map InputEl.value) =
      some (match imageParam with
            | some img => if img == "" then inp.value else img
            | none => inp.value) ∧
    requestsOf (WhaleImageManager.setupImageDropdown dom imageParam) = [] := by
  rcases h1 : dom.loadImagesDropdown with _ | b <;>
    rcases h2 : dom.refreshImagesListButton with _ | rb <;>
      rcases h3 : dom.availableImages with _ | s <;>
        rcases imageParam with _ | img
  all_goals
    first
    | ((constructor <;>
        simp [WhaleImageManager.setupImageDropdown, h1, h2, h3, hinp, applyEv]) <;>
        done)
    | (by_cases himg : img = "" <;>
        constructor <;>
          simp [WhaleImageManager.setupImageDropdown, h1, h2, h3, hinp,
            applyEv, himg])

theorem C8_witness :
    ((runEvs dom0 (WhaleImageManager.setupImageDropdown dom0
      (some "alpine:latest"))).dockerImage.map InputEl.value) =
      some "alpine:latest" ∧
    requestsOf (WhaleImageManager.setupImageDropdown dom0
      (some "alpine:latest")) = [] := by
  have h := C8_amended_url_preselect dom0 inp0 (some "alpine:latest") rfl
  simpa using h
